/-
Verification of the metahelm dependency-graph chart install/upgrade scheduler.

Shallow embedding of the Go sources:
  * pkg/metahelm/metahelm.go   — Manager.Install, the install-callback loop,
    Manager.waitForChart (readiness poller)
  * the ChartError failure aggregator (PopulateFromRelease /
    PopulateFromDeployment)
  * the CLI collaborator (cmd/install.go) only informs the data model.

Parts of the repository referenced by its tests and callers but absent from
the source tree (the Chart record declaration, the dag package's
ObjectGraph.Walk, ReleaseName, Upgrade) are modelled from the specification;
each such definition carries a doc comment starting `Modelled from the
spec:`.

Go machine details kept by the embedding:
  * `time.Duration` values are nanosecond counts, modelled as `Nat`.
  * enumerated Go `int` types (`InstallCallbackAction`,
    `HealthIndication`) are modelled as `Int` with named constants, so the
    `default:` branches of the source's switch statements stay meaningful.
  * `errors.Wrap(err, msg)` returns `nil` when `err == nil`; the embedding
    reproduces the resulting control flow explicitly.
  * an unlabelled Go `break` inside a `switch` exits the switch only, not
    an enclosing `for`; the embedding of the callback loop reproduces that.
-/
import Mathlib

namespace Metahelm

/-! ## Data model -/

/-- Modelled from the spec: the `Chart` record (its Go declaration is not in
the source tree; fields are those of spec §3 and the composite literals in
cmd/install.go and the tests). `WaitTimeout` is a `time.Duration`
(nanoseconds); `DeploymentHealthIndication` is a Go `int`. -/
structure Chart where
  Title : String
  Location : String
  ValueOverrides : String
  DependencyList : List String
  WaitUntilDeployment : String
  WaitUntilHelmSaysItsReady : Bool
  WaitTimeout : Nat
  DeploymentHealthIndication : Int
deriving DecidableEq, Repr

/-- Modelled from the spec: `IgnorePodHealth`, first of the
`HealthIndication` iota constants (declaration not in the source tree). -/
def IgnorePodHealth : Int := 0

/-- Modelled from the spec: `AtLeastOnePodHealthy` health indication. -/
def AtLeastOnePodHealthy : Int := 1

/-- Modelled from the spec: `AllPodsHealthy` health indication. -/
def AllPodsHealthy : Int := 2

/-- Modelled from the spec: `DefaultDeploymentTimeout`, the module-level
default used when a chart's `WaitTimeout` is zero (constant's declaration is
not in the source tree; the spec fixes no value — any nonzero duration; we
use 10 minutes in nanoseconds). -/
def DefaultDeploymentTimeout : Nat := 600000000000

/-- `InstallCallbackAction` constant `Continue` (iota = 0),
metahelm.go:67-74. -/
def ContinueAction : Int := 0

/-- `InstallCallbackAction` constant `Wait` (iota = 1). -/
def WaitAction : Int := 1

/-- `InstallCallbackAction` constant `Abort` (iota = 2). -/
def AbortAction : Int := 2

/-! ## The install-callback loop (metahelm.go:129-145)

The visitor `af` begins with

```
for {
    if ops.installCallback == nil { break }
    v := ops.installCallback(*cmap[obj.Name()])
    switch v {
    case Continue:
        break            // Go: exits the switch only, NOT the for loop
    case Wait:
        time.Sleep(retryDelay)
    case Abort:
        return errors.New("callback requested abort")
    default:
        return fmt.Errorf("unknown callback result: %v", v)
    }
}
```

`cbLoop` runs this loop for at most `fuel` iterations, threading the number
of callback invocations made so far in `calls`. The result's second
component is `none` while the loop is still running when the fuel runs out
(modelling nontermination), `some .proceed` when the loop exits towards the
install call, `some (.err msg)` when the visitor returns early. -/

/-- Outcome of leaving the callback loop. -/
inductive CbExit where
  | proceed
  | err (msg : String)
deriving DecidableEq, Repr

/-- The callback loop of the visitor in `Manager.Install`
(metahelm.go:129-145), fuel-bounded; returns (number of callback
invocations, exit outcome or `none` if still looping). -/
def cbLoop (cb : Option (Chart → Int)) (c : Chart) : Nat → Nat → Nat × Option CbExit
  | 0, calls => (calls, none)
  | _fuel + 1, calls =>
    match cb with
    | none => (calls, some CbExit.proceed)
    | some f =>
      let v := f c
      if v = ContinueAction then
        -- `break` exits only the switch: the for loop runs again
        cbLoop cb c _fuel (calls + 1)
      else if v = WaitAction then
        -- time.Sleep(retryDelay), then the loop runs again
        cbLoop cb c _fuel (calls + 1)
      else if v = AbortAction then
        (calls + 1, some (CbExit.err "callback requested abort"))
      else
        (calls + 1, some (CbExit.err "unknown callback result"))

/-! ## Pod phase check of the failure aggregator -/

/-- Kubernetes `corev1.PodPhase`. -/
inductive PodPhase where
  | Pending
  | Running
  | Succeeded
  | Failed
  | Unknown
deriving DecidableEq, BEq, Repr

/-- Container status fields consulted by the aggregator's log collection:
`Ready` and `LastTerminationState.Terminated.ExitCode` (`none` models a nil
`Terminated`). -/
structure ContainerStatusM where
  name : String
  ready : Bool
  lastTerminationExitCode : Option Int
deriving DecidableEq, Repr

/-- The pod fields read by the aggregator. -/
structure PodObj where
  name : String
  labels : List (String × String)
  phase : PodPhase
  message : String
  reason : String
  containerStatuses : List ContainerStatusM
deriving DecidableEq, Repr

/-- The aggregator's pod predicate, exactly as written in the source
(`pod.Status.Phase != corev1.PodRunning || pod.Status.Phase !=
corev1.PodSucceeded`): a disjunction of the two disequalities. -/
def podFailureCheck (pod : PodObj) : Bool :=
  pod.phase != PodPhase.Running || pod.phase != PodPhase.Succeeded

/-- A recorded failed pod: name, phase, message, reason and per-container
logs (container statuses / conditions are carried in the source as well;
`logs` maps container name to raw log bytes). -/
structure FailedPodM where
  name : String
  phase : PodPhase
  message : String
  reason : String
  containerStatuses : List ContainerStatusM
  logs : List (String × List Nat)
deriving DecidableEq, Repr

/-- Log collection for one pod's container statuses: for each container
that is not ready and whose last termination exited nonzero, fetch the log
tail; a fetch error aborts the whole aggregation (the source returns the
wrapped error). -/
def collectLogs (getLogs : String → String → Except String (List Nat))
    (podName : String) : List ContainerStatusM → Except String (List (String × List Nat))
  | [] => Except.ok []
  | cs :: rest =>
    if !cs.ready && (match cs.lastTerminationExitCode with
                     | some code => code != 0
                     | none => false) then
      match getLogs podName cs.name with
      | Except.error e => Except.error ("error getting logs for pod: " ++ podName ++ ": " ++ e)
      | Except.ok bytes =>
        match collectLogs getLogs podName rest with
        | Except.error e => Except.error e
        | Except.ok more => Except.ok ((cs.name, bytes) :: more)
    else
      collectLogs getLogs podName rest

/-- The per-pod-list collection loop shared (by copy-paste in the source)
between `PopulateFromRelease` and `PopulateFromDeployment`: every pod
passing `podFailureCheck` is recorded, with logs gathered by
`collectLogs`. -/
def collectFailedPods (getLogs : String → String → Except String (List Nat)) :
    List PodObj → Except String (List FailedPodM)
  | [] => Except.ok []
  | pod :: rest =>
    if podFailureCheck pod then
      match collectLogs getLogs pod.name pod.containerStatuses with
      | Except.error e => Except.error e
      | Except.ok logs =>
        match collectFailedPods getLogs rest with
        | Except.error e => Except.error e
        | Except.ok more =>
          Except.ok ({ name := pod.name, phase := pod.phase,
                       message := pod.message, reason := pod.reason,
                       containerStatuses := pod.containerStatuses,
                       logs := logs } :: more)
    else
      collectFailedPods getLogs rest

/-! ## The failure aggregator: ChartError and PopulateFromRelease

`ChartError` (the Go struct) holds a slice `FailedPods` and three maps.
`PopulateFromRelease` has a VALUE receiver `(ce ChartError)`: the three map
headers in the copy still point at the caller's hash tables, so map inserts
are visible to the caller, while the assignment `ce.FailedPods = failedpods`
rebinds only the local copy's slice header and is invisible to the caller.
The embedding computes the local copy's final value
(`populateFromRelease`) and derives the caller-visible value
(`populateFromReleaseCaller`) by restoring the caller's `FailedPods`. -/

/-- The `ChartError` aggregate; the maps are modelled as association
lists. -/
structure ChartErrorM where
  FailedPods : List FailedPodM
  FailedDaemonSets : List (String × List FailedPodM)
  FailedDeployments : List (String × List FailedPodM)
  FailedJobs : List (String × List FailedPodM)
deriving DecidableEq, Repr

/-- `NewChartError`: the initialized empty aggregate. -/
def NewChartError : ChartErrorM :=
  { FailedPods := [], FailedDaemonSets := [], FailedDeployments := [],
    FailedJobs := [] }

/-- Go map assignment `m[k] = v` on an association list: replace an
existing binding or add one. -/
def mapSet (k : String) (v : List FailedPodM) :
    List (String × List FailedPodM) → List (String × List FailedPodM)
  | [] => [(k, v)]
  | (k', v') :: rest => if k' = k then (k, v) :: rest else (k', v') :: mapSet k v rest

/-- A release manifest as seen by the aggregator's loop: `m.Head.Kind` and
`m.Name`. -/
structure ManifestM where
  kind : String
  name : String
deriving DecidableEq, Repr

/-- Workload objects as read by the aggregator: a name, the
`Spec.Selector.MatchLabels` map, and (for deployments) the
`Spec.Replicas` pointer. -/
structure WorkloadObj where
  name : String
  selector : List (String × String)
  replicas : Option Int
deriving DecidableEq, Repr

/-- `ReplicaSet.Status.ReadyReplicas`, the only replica-set field the
poller reads. -/
structure ReplicaSetObj where
  readyReplicas : Int
deriving DecidableEq, Repr

/-- The cluster state visible to the aggregator and the poller, restricted
to the single namespace of the release. Lookup functions return
`Except.error` to model a failing client call. `newReplicaSet` models
`deploymentutil.GetNewReplicaSet` (which can fail, or find no replica
set). A `Get` that succeeds always yields an object (the Go client never
returns `nil, nil`). -/
structure K8sState where
  getDeployment : String → Except String WorkloadObj
  getJob : String → Except String WorkloadObj
  getDaemonSet : String → Except String WorkloadObj
  newReplicaSet : String → Except String (Option ReplicaSetObj)
  pods : List PodObj
  getLogs : String → String → Except String (List Nat)

/-- `Pods(ns).List` with a label selector built from `MatchLabels`: the
pods whose label map contains every selector pair. -/
def listPods (st : K8sState) (ss : List (String × String)) : List PodObj :=
  st.pods.filter (fun p => ss.all (fun kv => kv ∈ p.labels))

/-- Result of one arm of the `switch m.Head.Kind` at the top of the
manifest loop (src/unnamed/part_002:64-99): either fall through to the pod
listing with the OUTER `ss` value, skip the manifest (`continue`), or
return from `PopulateFromRelease` early. `earlyOk` models the source's
`return errors.Wrap(err, ...)` lines reached with `err == nil`
(`errors.Wrap(nil, msg)` is `nil`, so the function returns success — a nil
error — at that point). -/
inductive BranchOut where
  | next (ss : List (String × String))
  | skip
  | earlyOk
  | earlyErr (msg : String)

/-- The `switch m.Head.Kind` selector-resolution arms, exactly as in the
source. In the `"Job"` and `"DaemonSet"` arms the source declares a NEW
`ss := []string{}` that SHADOWS the outer `ss`; the selector pairs are
appended to the shadowed local, which is then dropped, and the outer `ss`
(carried in `.next`) stays empty. The `"Pod"` arm appends nothing. -/
def manifestBranch (st : K8sState) (m : ManifestM) : BranchOut :=
  match m.kind with
  | "Deployment" =>
    match st.getDeployment m.name with
    | Except.error _ => BranchOut.earlyErr "error getting deployment"
    | Except.ok d =>
      match d.replicas with
      | none => BranchOut.earlyOk
      | some _ =>
        match st.newReplicaSet d.name with
        | Except.error _ => BranchOut.earlyErr "error replica set"
        | Except.ok none => BranchOut.earlyOk
        | Except.ok (some _) => BranchOut.next d.selector
  | "Job" =>
    match st.getJob m.name with
    | Except.error _ => BranchOut.earlyErr "error getting job"
    | Except.ok j =>
      let _ssShadowed := j.selector
      BranchOut.next []
  | "DaemonSet" =>
    match st.getDaemonSet m.name with
    | Except.error _ => BranchOut.earlyErr "error getting daemonset"
    | Except.ok ds =>
      let _ssShadowed := ds.selector
      BranchOut.next []
  | "Pod" => BranchOut.next []
  | _ => BranchOut.skip

/-- The `switch m.Head.Kind` at the bottom of the loop
(src/unnamed/part_002:137-146): store the collected pods under the
workload's name. The `"Pod"` arm assigns the local copy's `FailedPods`
slice header. -/
def storeFailedPods (ce : ChartErrorM) (m : ManifestM)
    (failedpods : List FailedPodM) : ChartErrorM :=
  match m.kind with
  | "Deployment" => { ce with FailedDeployments := mapSet m.name failedpods ce.FailedDeployments }
  | "Job" => { ce with FailedJobs := mapSet m.name failedpods ce.FailedJobs }
  | "DaemonSet" => { ce with FailedDaemonSets := mapSet m.name failedpods ce.FailedDaemonSets }
  | "Pod" => { ce with FailedPods := failedpods }
  | _ => ce

/-- The manifest loop of `PopulateFromRelease`, over the local copy `ce` of
the receiver. After the branch: `if len(ss) == 0 { continue }`, then the
pod listing, the failed-pod collection, and the store. -/
def popLoop (st : K8sState) (ce : ChartErrorM) : List ManifestM → Except String ChartErrorM
  | [] => Except.ok ce
  | m :: rest =>
    match manifestBranch st m with
    | BranchOut.skip => popLoop st ce rest
    | BranchOut.earlyOk => Except.ok ce
    | BranchOut.earlyErr e => Except.error e
    | BranchOut.next ss =>
      if ss = [] then popLoop st ce rest
      else
        match collectFailedPods st.getLogs (listPods st ss) with
        | Except.error e => Except.error e
        | Except.ok failedpods => popLoop st (storeFailedPods ce m failedpods) rest

/-- `ChartError.PopulateFromRelease`, as executed on the receiver's local
copy. Manifest splitting (the helm library's `SplitManifests`) and the
`rls == nil` guard are outside the embedding: the manifests are taken as a
list. -/
def populateFromRelease (ce : ChartErrorM) (st : K8sState)
    (manifests : List ManifestM) : Except String ChartErrorM :=
  popLoop st ce manifests

/-- The caller-visible `ChartError` after `PopulateFromRelease` returns:
because the receiver is a value, the caller observes the map inserts (the
copied map headers share the hash tables) but NOT the `ce.FailedPods`
slice assignment, which rebinds only the local copy. -/
def populateFromReleaseCaller (ce : ChartErrorM) (st : K8sState)
    (manifests : List ManifestM) : Except String ChartErrorM :=
  match populateFromRelease ce st manifests with
  | Except.error e => Except.error e
  | Except.ok r => Except.ok { r with FailedPods := ce.FailedPods }

/-! ## The readiness poller: Manager.waitForChart (metahelm.go:164-188) -/

/-- Result of one execution of the poll closure passed to `wait.Poll`:
`(true, nil)` / `(false, nil)` / `(_, err)`. -/
inductive PollResult where
  | ready
  | retry
  | failed (msg : String)
deriving DecidableEq, Repr

/-- One tick of the poll closure. The deployment fetch and the
`GetNewReplicaSet` call are the two client interactions; note the source's
`if err != nil || d.Spec.Replicas == nil { return false, errors.Wrap(err, ...) }`:
with `err == nil` and a nil `Replicas` pointer, `errors.Wrap(nil, ...)` is
`nil`, so the tick yields `(false, nil)` — retry, not failure. If the new
replica set exists, `needed` is 1, or the deployment's declared replica
count when the chart's health indication is `AllPodsHealthy`; the tick is
ready iff `ReadyReplicas >= needed`. A nil replica set retries. -/
def pollCond (c : Chart) (dRes : Except String WorkloadObj)
    (rsRes : Except String (Option ReplicaSetObj)) : PollResult :=
  match dRes with
  | Except.error e => PollResult.failed ("error getting deployment: " ++ e)
  | Except.ok d =>
    match d.replicas with
    | none => PollResult.retry
    | some reps =>
      match rsRes with
      | Except.error e => PollResult.failed ("error getting new replica set: " ++ e)
      | Except.ok none => PollResult.retry
      | Except.ok (some rs) =>
        let needed : Int := if c.DeploymentHealthIndication = AllPodsHealthy then reps else 1
        if rs.readyReplicas ≥ needed then PollResult.ready else PollResult.retry

/-- Outcome of `waitForChart`. -/
inductive WaitOutcome where
  | success
  | timedOut
  | failedErr (msg : String)
deriving DecidableEq, Repr

/-- The `wait.Poll` loop: `inp k` is the pair of client results observed at
tick `k`; `fuel` is the number of ticks the chart's `WaitTimeout` allows at
`chartWaitPollInterval`. Returns the outcome and the number of ticks
executed. -/
def waitLoop (c : Chart)
    (inp : Nat → Except String WorkloadObj × Except String (Option ReplicaSetObj)) :
    Nat → Nat → WaitOutcome × Nat
  | 0, ticks => (WaitOutcome.timedOut, ticks)
  | fuel + 1, ticks =>
    match pollCond c (inp ticks).1 (inp ticks).2 with
    | PollResult.ready => (WaitOutcome.success, ticks + 1)
    | PollResult.retry => waitLoop c inp fuel (ticks + 1)
    | PollResult.failed m => (WaitOutcome.failedErr m, ticks + 1)

/-- `Manager.waitForChart`: a chart whose health indication is
`IgnorePodHealth` returns nil immediately (zero poll ticks); otherwise the
poll loop runs. -/
def waitForChartModel (c : Chart)
    (inp : Nat → Except String WorkloadObj × Except String (Option ReplicaSetObj))
    (fuel : Nat) : WaitOutcome × Nat :=
  if c.DeploymentHealthIndication = IgnorePodHealth then (WaitOutcome.success, 0)
  else waitLoop c inp fuel 0

/-! ## Install's chart-normalization/validation loop (metahelm.go:107-123)

The loop writes `charts[i].WaitTimeout = DefaultDeploymentTimeout` through
the slice into the CALLER's backing array before validating the chart, and
returns early on the first validation failure (leaving later elements
untouched). `installLoopCharts` returns the loop's error (if any) together
with the caller-visible chart slice after the call. -/

/-- The in-place default applied to `charts[i]` at metahelm.go:108-110. -/
def normalizeChart (c : Chart) : Chart :=
  if c.WaitTimeout = 0 then { c with WaitTimeout := DefaultDeploymentTimeout } else c

/-- The per-chart validation at metahelm.go:111-120: empty location, then
the health-indication switch whose `default:` arm rejects unknown values. -/
def chartCheck (c : Chart) : Option String :=
  if c.Location = "" then some ("empty location for chart: " ++ c.Title)
  else if c.DeploymentHealthIndication = IgnorePodHealth then none
  else if c.DeploymentHealthIndication = AllPodsHealthy then none
  else if c.DeploymentHealthIndication = AtLeastOnePodHealthy then none
  else some "unknown value for DeploymentHealthIndication"

/-- The `for i := range charts` loop of `Install`: (first error, caller's
chart slice after the call). -/
def installLoopCharts : List Chart → Option String × List Chart
  | [] => (none, [])
  | c :: rest =>
    let c' := normalizeChart c
    match chartCheck c' with
    | some e => (some e, c' :: rest)
    | none =>
      let r := installLoopCharts rest
      (r.1, c' :: r.2)

/-! ## The release-name sanitizer -/

/-- ASCII lowercasing of one character (non-ASCII letters are replaced by
`-` in the next step either way). -/
def lowerChar (c : Char) : Char :=
  if 'A' ≤ c ∧ c ≤ 'Z' then Char.ofNat (c.toNat + 32) else c

/-- Membership in the release-name alphabet `[a-z0-9-]`. -/
def allowedChar (c : Char) : Bool :=
  ('a' ≤ c && c ≤ 'z') || ('0' ≤ c && c ≤ '9') || c = '-'

/-- Replace a character outside the alphabet by `-`. -/
def replaceChar (c : Char) : Char :=
  if allowedChar c then c else '-'

/-- Collapse runs of `-` to a single `-`: worker with a flag recording
whether the previously kept character was a dash. -/
def collapseGo : Bool → List Char → List Char
  | _, [] => []
  | prevDash, c :: rest =>
    if c = '-' then
      if prevDash then collapseGo true rest
      else '-' :: collapseGo true rest
    else c :: collapseGo false rest

/-- Collapse runs of `-` to a single `-`. -/
def collapseDashes (l : List Char) : List Char := collapseGo false l

/-- Strip leading and trailing `-`. -/
def stripDashes (l : List Char) : List Char :=
  ((l.dropWhile (· = '-')).reverse.dropWhile (· = '-')).reverse

/-- Modelled from the spec: the deterministic fallback substituted when
sanitization erases every code point of a non-empty input (the spec
suggests a short hash; any fixed non-empty string over the alphabet
satisfies the contract). -/
def fallbackName : List Char := ['m', 'h']

/-- Modelled from the spec: `ReleaseName` (its Go definition is not in the
source tree; only its tests and the CLI caller are). Lowercase; replace
characters outside `[a-z0-9-]` with `-`; collapse dash runs; strip
leading/trailing dashes; substitute the deterministic fallback if the
result is empty; truncate to 53 code points. -/
def releaseNameModel (s : List Char) : List Char :=
  let r := stripDashes (collapseDashes ((s.map lowerChar).map replaceChar))
  let r' := if r = [] then fallbackName else r
  r'.take 53

/-! ## Upgrade's missing-release check -/

/-- `ReleaseMap` lookup: chart title → release name. -/
def lookupRM (rm : List (String × String)) (t : String) : Option String :=
  match rm.find? (fun kv => kv.1 = t) with
  | some kv => some kv.2
  | none => none

/-- Modelled from the spec: `Manager.Upgrade` (its Go definition is not in
the source tree; only its tests and the CLI caller are). Per spec §4.6/§6
it fails fast with `ErrMissingRelease(title)` if any chart lacks an entry
in the release map, before performing any upgrade; otherwise it upgrades
every chart. Returns (error, list of performed upgrade operations as
(title, release) pairs). -/
def upgradeModel (rm : List (String × String)) (charts : List Chart) :
    Option String × List (String × String) :=
  match charts.find? (fun c => (lookupRM rm c.Title).isNone) with
  | some c => (some ("missing release for chart: " ++ c.Title), [])
  | none =>
    (none, charts.map (fun c => (c.Title, (lookupRM rm c.Title).getD "")))

/-! ## The dependency graph and the concurrent walk

The dag package is not in the source tree (only `Install`'s calls to
`og.Build` and `og.Walk` are), so the graph and the walk are modelled from
the spec (§3 `ObjectGraph`, §4.2, §4.3). -/

/-- Modelled from the spec: the dependency DAG. Nodes are chart titles;
`deps v` is chart `v`'s `dependency_list`, so an edge u→v exists exactly
when chart v lists chart u's title. -/
structure DepGraph where
  nodes : List String
  deps : String → List String

/-- The graph `Install` builds from its chart slice: one node per chart
title, dependencies straight from `DependencyList`. -/
def chartGraph (charts : List Chart) : DepGraph :=
  { nodes := charts.map (fun c => c.Title)
    deps := fun t =>
      match charts.find? (fun c => c.Title = t) with
      | some c => c.DependencyList
      | none => [] }

/-- Observable events of a concurrent walk: a visitor being invoked on a
node, and a visitor returning success. A visitor that fails emits no
`finish` event. -/
inductive WEvent where
  | start (n : String)
  | finish (n : String)
deriving DecidableEq, Repr

/-- Modelled from the spec: the traces the wave executor can produce
(§4.3: each node's task waits for all its predecessors' completion
signals, invokes the visitor exactly once, then publishes its own signal).
The trace lists events in REVERSE chronological order (head = most
recent). A `start n` may be appended only when `n` is a node, its visitor
has not started before, and every dependency has already finished
successfully; a `finish n` only after `start n` and at most once. -/
inductive WalkTrace (g : DepGraph) : List WEvent → Prop
  | nil : WalkTrace g []
  | start {tr : List WEvent} {n : String} :
      WalkTrace g tr →
      n ∈ g.nodes →
      WEvent.start n ∉ tr →
      (∀ d ∈ g.deps n, WEvent.finish d ∈ tr) →
      WalkTrace g (WEvent.start n :: tr)
  | finish {tr : List WEvent} {n : String} :
      WalkTrace g tr →
      WEvent.start n ∈ tr →
      WEvent.finish n ∉ tr →
      WalkTrace g (WEvent.finish n :: tr)

/-! ## Install, end to end (sequential determinization)

`Install` (metahelm.go:94-160): option processing, the empty-charts guard,
the normalization/validation loop, `og.Build`, then `og.Walk` running the
visitor `af` per chart (callback loop → `InstallRelease` → record release →
`waitForChart`). Concurrency is modelled sequentially: the walk executes
the charts in one topological order (a linearization of the concurrent
walk; the ordering properties of the concurrent walk itself are stated over
`WalkTrace`). The model records the externally visible events. -/

/-- Externally visible actions of `Install`: the graph build, each
invocation of the install callback, and each call of the installer. -/
inductive IEvent where
  | graphBuilt
  | cbCall (title : String)
  | installCall (title : String)
deriving DecidableEq, Repr

/-- Modelled from the spec: Kahn's algorithm (§4.2) for `ObjectGraph.Build`
— iterated removal of nodes all of whose dependencies are already removed;
a cycle is reported when the frontier empties with nodes remaining.
Dangling dependencies are rejected first. -/
def kahnLoop (g : DepGraph) : Nat → List String → List String → Except String (List String)
  | 0, remaining, acc =>
    if remaining = [] then Except.ok acc.reverse else Except.error "dependency cycle detected"
  | fuel + 1, remaining, acc =>
    if remaining = [] then Except.ok acc.reverse
    else
      let ready := remaining.filter (fun n => (g.deps n).all (fun d => acc.contains d))
      if ready = [] then Except.error "dependency cycle detected"
      else kahnLoop g fuel (remaining.filter (fun n => !ready.contains n))
             (ready.reverse ++ acc)

/-- Modelled from the spec: `ObjectGraph.Build` + topological order. -/
def buildOrder (g : DepGraph) : Except String (List String) :=
  if g.nodes.all (fun n => (g.deps n).all (fun d => g.nodes.contains d)) then
    kahnLoop g g.nodes.length g.nodes []
  else Except.error "unknown dependency"

/-- The visitor `af` for one chart (metahelm.go:129-155), sequentially:
run the callback loop, then the installer, then `waitForChart`. Returns
`none` when the callback loop is still running after `cbFuel` iterations
(nontermination), otherwise the chart's release name or error; plus the
events emitted. -/
def visitChart (cb : Option (Chart → Int))
    (installRelease : Chart → Except String String)
    (pollInp : String → Nat → Except String WorkloadObj × Except String (Option ReplicaSetObj))
    (cbFuel waitFuel : Nat) (c : Chart) :
    Option (Except String String) × List IEvent :=
  let r := cbLoop cb c cbFuel 0
  let cbEvents := List.replicate r.1 (IEvent.cbCall c.Title)
  match r.2 with
  | none => (none, cbEvents)
  | some (CbExit.err e) => (some (Except.error e), cbEvents)
  | some CbExit.proceed =>
    match installRelease c with
    | Except.error e =>
      (some (Except.error ("error installing chart: " ++ e)),
       cbEvents ++ [IEvent.installCall c.Title])
    | Except.ok rel =>
      match waitForChartModel c (pollInp c.Title) waitFuel with
      | (WaitOutcome.success, _) =>
        (some (Except.ok rel), cbEvents ++ [IEvent.installCall c.Title])
      | (WaitOutcome.timedOut, _) =>
        (some (Except.error "timed out waiting for the condition"),
         cbEvents ++ [IEvent.installCall c.Title])
      | (WaitOutcome.failedErr m, _) =>
        (some (Except.error m), cbEvents ++ [IEvent.installCall c.Title])

/-- The walk in topological order: visit each chart, accumulating the
release map; the first error stops the walk. `none` = a visitor diverged in
its callback loop. -/
def seqWalk (charts : List Chart) (cb : Option (Chart → Int))
    (installRelease : Chart → Except String String)
    (pollInp : String → Nat → Except String WorkloadObj × Except String (Option ReplicaSetObj))
    (cbFuel waitFuel : Nat) :
    List String → List (String × String) → Option (Except String (List (String × String))) × List IEvent
  | [], rmap => (some (Except.ok rmap.reverse), [])
  | t :: rest, rmap =>
    match charts.find? (fun c => c.Title = t) with
    | none => (some (Except.error "chart not found in graph"), [])
    | some c =>
      match visitChart cb installRelease pollInp cbFuel waitFuel c with
      | (none, evs) => (none, evs)
      | (some (Except.error m), evs) =>
        (some (Except.error ("error running installs: " ++ m)), evs)
      | (some (Except.ok rel), evs) =>
        let r := seqWalk charts cb installRelease pollInp cbFuel waitFuel rest ((c.Title, rel) :: rmap)
        (r.1, evs ++ r.2)

/-- `Manager.Install`, sequentially determinized: the empty-charts guard
(metahelm.go:99-101) precedes the normalization/validation loop, the graph
build and the walk. Returns the result (`none` = divergence in a callback
loop) and the trace of externally visible events. -/
def InstallM (charts : List Chart) (cb : Option (Chart → Int))
    (installRelease : Chart → Except String String)
    (pollInp : String → Nat → Except String WorkloadObj × Except String (Option ReplicaSetObj))
    (cbFuel waitFuel : Nat) :
    Option (Except String (List (String × String))) × List IEvent :=
  if charts.length = 0 then (some (Except.error "no charts were supplied"), [])
  else
    match installLoopCharts charts with
    | (some e, _) => (some (Except.error e), [])
    | (none, charts') =>
      match buildOrder (chartGraph charts') with
      | Except.error e => (some (Except.error ("error building graph: " ++ e)), [])
      | Except.ok order =>
        let r := seqWalk charts' cb installRelease pollInp cbFuel waitFuel order []
        (r.1, IEvent.graphBuilt :: r.2)

/-! ## Concrete instances (mirroring the repository's test fixtures) -/

/-- A leaf chart akin to the tests' `redis` fixture (no dependencies,
health ignored, zero `WaitTimeout`). -/
def redisChart : Chart :=
  { Title := "redis", Location := "/foo", ValueOverrides := "",
    DependencyList := [], WaitUntilDeployment := "",
    WaitUntilHelmSaysItsReady := false, WaitTimeout := 0,
    DeploymentHealthIndication := IgnorePodHealth }

/-- A chart depending on `redis`, akin to the tests' `anotherthing`
fixture. -/
def anotherChart : Chart :=
  { Title := "anotherthing", Location := "/foo", ValueOverrides := "",
    DependencyList := ["redis"], WaitUntilDeployment := "anotherthing",
    WaitUntilHelmSaysItsReady := false, WaitTimeout := 2000000000,
    DeploymentHealthIndication := AllPodsHealthy }

/-- A pod in phase `Running` with healthy containers. -/
def runningPod : PodObj :=
  { name := "pod-run", labels := [("app", "myjob")], phase := PodPhase.Running,
    message := "", reason := "", containerStatuses := [] }

/-- A pod of the `myjob` workload in phase `Failed`. -/
def failedJobPod : PodObj :=
  { name := "myjob-pod", labels := [("app", "myjob")], phase := PodPhase.Failed,
    message := "job failed", reason := "Error", containerStatuses := [] }

/-- Cluster state for the Job-aggregation scenario: one Job `myjob` whose
selector matches `failedJobPod`. -/
def jobState : K8sState :=
  { getDeployment := fun _ => Except.error "deployments \"none\" not found"
    getJob := fun n =>
      if n = "myjob" then
        Except.ok { name := "myjob", selector := [("app", "myjob")], replicas := none }
      else Except.error "jobs not found"
    getDaemonSet := fun _ => Except.error "daemonsets not found"
    newReplicaSet := fun _ => Except.ok none
    pods := [failedJobPod]
    getLogs := fun _ _ => Except.ok [] }

/-- A bare pod in phase `Failed` for the Pod-manifest scenario. -/
def failedBarePod : PodObj :=
  { name := "mypod", labels := [("app", "mypod")], phase := PodPhase.Failed,
    message := "crashed", reason := "Error", containerStatuses := [] }

/-- Cluster state for the bare-Pod scenario. -/
def podState : K8sState :=
  { getDeployment := fun _ => Except.error "deployments not found"
    getJob := fun _ => Except.error "jobs not found"
    getDaemonSet := fun _ => Except.error "daemonsets not found"
    newReplicaSet := fun _ => Except.ok none
    pods := [failedBarePod]
    getLogs := fun _ _ => Except.ok [] }

/-- A deployment record with one declared replica. -/
def waitDeploy : WorkloadObj :=
  { name := "anotherthing", selector := [("app", "anotherthing")], replicas := some 1 }

/-- A replica set reporting one ready replica. -/
def waitRS : ReplicaSetObj := { readyReplicas := 1 }

/-! ## Helper lemmas -/

/-- With a callback constantly answering `Continue`, every iteration of the
callback loop invokes the callback once and loops again: after `n`
iterations the loop has made `k + n` calls and has not exited. -/
theorem cbLoop_continue_eq (c : Chart) (n : Nat) :
    ∀ k, cbLoop (some (fun _ => ContinueAction)) c n k = (k + n, none) := by
  induction n with
  | zero => intro k; simp [cbLoop]
  | succ m ih =>
    intro k
    simp only [cbLoop]
    rw [if_pos trivial, ih (k + 1)]
    have harith : k + 1 + m = k + (m + 1) := by omega
    rw [harith]

/-- In any trace of the wave executor, every dependency `u` of a node `v`
has finished (successfully) strictly before `v`'s visitor starts: if the
trace (head = most recent) splits as `p ++ start v :: s`, then `finish u`
lies in the earlier part `s`. -/
theorem walkTrace_before {g : DepGraph} {tr : List WEvent} (hw : WalkTrace g tr) :
    ∀ {u v : String} {p s : List WEvent},
      u ∈ g.deps v → tr = p ++ WEvent.start v :: s → WEvent.finish u ∈ s := by
  induction hw with
  | nil =>
    intro u v p s _ hsp
    cases p <;> simp at hsp
  | @start tr' n _ _ _ hdeps ih =>
    intro u v p s he hsp
    cases p with
    | nil =>
      simp only [List.nil_append, List.cons.injEq] at hsp
      obtain ⟨hnv, hts⟩ := hsp
      injection hnv with hnv
      subst hnv
      exact hts ▸ hdeps u he
    | cons e p' =>
      simp only [List.cons_append, List.cons.injEq] at hsp
      exact ih he hsp.2
  | @finish tr' n _ _ _ ih =>
    intro u v p s he hsp
    cases p with
    | nil => simp at hsp
    | cons e p' =>
      simp only [List.cons_append, List.cons.injEq] at hsp
      exact ih he hsp.2

/-- Collapsing dash runs only keeps characters of the input. -/
theorem collapseGo_subset : ∀ (b : Bool) (l : List Char), collapseGo b l ⊆ l := by
  intro b l
  induction l generalizing b with
  | nil => simp [collapseGo]
  | cons c rest ih =>
    intro x hx
    simp only [collapseGo] at hx
    by_cases hc : c = '-'
    · rw [if_pos hc] at hx
      cases b with
      | true =>
        rw [if_pos rfl] at hx
        exact List.mem_cons_of_mem c (ih true hx)
      | false =>
        rw [if_neg (by decide)] at hx
        rcases List.mem_cons.mp hx with h | h
        · exact h ▸ hc ▸ List.mem_cons_self c rest
        · exact List.mem_cons_of_mem c (ih true h)
    · rw [if_neg hc] at hx
      rcases List.mem_cons.mp hx with h | h
      · exact h ▸ List.mem_cons_self c rest
      · exact List.mem_cons_of_mem c (ih false h)

/-- Stripping dashes only keeps characters of the input. -/
theorem stripDashes_subset (l : List Char) : stripDashes l ⊆ l := by
  intro x hx
  unfold stripDashes at hx
  rw [List.mem_reverse] at hx
  have h1 := (List.dropWhile_sublist (fun c => decide (c = '-'))).subset hx
  rw [List.mem_reverse] at h1
  exact (List.dropWhile_sublist (fun c => decide (c = '-'))).subset h1

/-- The replacement step lands in the release-name alphabet. -/
theorem allowedChar_replaceChar (c : Char) : allowedChar (replaceChar c) = true := by
  unfold replaceChar
  by_cases h : allowedChar c = true
  · rw [if_pos h]; exact h
  · rw [if_neg h]; decide

/-! ## Claims -/

/-- C1: for every edge u→v of the dependency DAG (chart v lists chart u's
title in its `DependencyList`), during a walk the visitor for u returns
success before the visitor for v is invoked: in any executor trace that
contains `start v`, the event `finish u` occurs strictly earlier. -/
theorem walk_respects_dependencies (charts : List Chart) (tr p s : List WEvent)
    (u v : String) (hw : WalkTrace (chartGraph charts) tr)
    (hedge : u ∈ (chartGraph charts).deps v)
    (hsplit : tr = p ++ WEvent.start v :: s) :
    WEvent.finish u ∈ s :=
  walkTrace_before hw hedge hsplit

/-- Witness for C1: on the two-chart graph `anotherthing → redis`
(`anotherthing` depends on `redis`), the executor trace
`start redis; finish redis; start anotherthing` is valid, and the theorem
places `finish redis` before `start anotherthing`. -/
theorem walk_respects_dependencies_witness :
    WEvent.finish "redis" ∈ [WEvent.finish "redis", WEvent.start "redis"] := by
  have h1 : WalkTrace (chartGraph [redisChart, anotherChart]) [WEvent.start "redis"] :=
    WalkTrace.start WalkTrace.nil (by decide) (by decide) (by decide)
  have h2 : WalkTrace (chartGraph [redisChart, anotherChart])
      [WEvent.finish "redis", WEvent.start "redis"] :=
    WalkTrace.finish h1 (by decide) (by decide)
  have h3 : WalkTrace (chartGraph [redisChart, anotherChart])
      [WEvent.start "anotherthing", WEvent.finish "redis", WEvent.start "redis"] :=
    WalkTrace.start h2 (by decide) (by decide) (by decide)
  exact walk_respects_dependencies [redisChart, anotherChart] _ []
    [WEvent.finish "redis", WEvent.start "redis"] "redis" "anotherthing" h3
    (by decide) rfl

/-- C2 (code bug): when the supplied install callback returns `Continue`,
the Go `break` exits only the `switch`, not the `for` loop, so the visitor
invokes the callback again on every iteration, never leaves the loop, and
never reaches the install call: after `n` iterations the loop has made
`k + n` calls without exiting, the visitor's result is divergence, and no
install event is emitted. -/
theorem continue_callback_never_installs (c : Chart) (n k waitFuel : Nat)
    (installRelease : Chart → Except String String)
    (pollInp : String → Nat → Except String WorkloadObj × Except String (Option ReplicaSetObj)) :
    cbLoop (some (fun _ => ContinueAction)) c n k = (k + n, none)
    ∧ (visitChart (some (fun _ => ContinueAction)) installRelease pollInp n waitFuel c).1 = none
    ∧ IEvent.installCall c.Title ∉
        (visitChart (some (fun _ => ContinueAction)) installRelease pollInp n waitFuel c).2 := by
  refine ⟨cbLoop_continue_eq c n k, ?_, ?_⟩
  · simp [visitChart, cbLoop_continue_eq c n 0]
  · simp [visitChart, cbLoop_continue_eq c n 0, List.mem_replicate]

/-- C3: a chart whose health indication is `IgnorePodHealth` makes
`waitForChart` return success immediately, with zero poll ticks; for the
other indications, a poll tick that sees the deployment and its current
replica set declares the chart ready exactly when `ReadyReplicas ≥ 1`
(`AtLeastOnePodHealthy`) respectively `ReadyReplicas ≥` the deployment's
declared replica count (`AllPodsHealthy`). -/
theorem waitForChart_readiness (c : Chart)
    (inp : Nat → Except String WorkloadObj × Except String (Option ReplicaSetObj))
    (fuel : Nat) (d : WorkloadObj) (rs : ReplicaSetObj) (reps : Int)
    (hreps : d.replicas = some reps) :
    (c.DeploymentHealthIndication = IgnorePodHealth →
      waitForChartModel c inp fuel = (WaitOutcome.success, 0))
    ∧ (c.DeploymentHealthIndication = AtLeastOnePodHealthy →
      (pollCond c (Except.ok d) (Except.ok (some rs)) = PollResult.ready ↔
        1 ≤ rs.readyReplicas))
    ∧ (c.DeploymentHealthIndication = AllPodsHealthy →
      (pollCond c (Except.ok d) (Except.ok (some rs)) = PollResult.ready ↔
        reps ≤ rs.readyReplicas)) := by
  refine ⟨fun h => by simp [waitForChartModel, h], fun h => ?_, fun h => ?_⟩
  · by_cases hge : (1 : Int) ≤ rs.readyReplicas
    · simp [pollCond, hreps, h, AtLeastOnePodHealthy, AllPodsHealthy, hge]
    · simp [pollCond, hreps, h, AtLeastOnePodHealthy, AllPodsHealthy, hge]
  · by_cases hge : reps ≤ rs.readyReplicas
    · simp [pollCond, hreps, h, hge]
    · simp [pollCond, hreps, h, hge]

/-- Witness for C3: on the `anotherthing` chart (`AllPodsHealthy`, one
declared replica) a tick seeing one ready replica is ready. -/
theorem waitForChart_readiness_witness :
    pollCond anotherChart (Except.ok waitDeploy) (Except.ok (some waitRS)) = PollResult.ready :=
  ((waitForChart_readiness anotherChart
      (fun _ => (Except.ok waitDeploy, Except.ok (some waitRS))) 1
      waitDeploy waitRS 1 rfl).2.2 rfl).mpr (by decide)

/-- C4 (code bug): the aggregator's phase comparison
`pod.Status.Phase != Running || pod.Status.Phase != Succeeded` is a
tautology, so a pod whose phase is `Running` IS recorded in the failed-pod
list — refuting the claim that a pod is recorded iff its phase is neither
`Running` nor `Succeeded`. -/
theorem running_pod_recorded_as_failed :
    podFailureCheck runningPod = true
    ∧ collectFailedPods (fun _ _ => Except.ok []) [runningPod] =
        Except.ok [{ name := "pod-run", phase := PodPhase.Running, message := "",
                     reason := "", containerStatuses := [], logs := [] }] :=
  ⟨by decide, rfl⟩

/-- C5 (code bug): in the `"Job"` (and `"DaemonSet"`) arm of
`PopulateFromRelease` the selector is appended to a SHADOWING local `ss`,
so the outer `ss` stays empty and the manifest is skipped by the
`len(ss) == 0` guard: with a Job `myjob` whose selector matches a pod in
phase `Failed`, the function succeeds yet stores nothing in `FailedJobs`. -/
theorem job_manifest_silently_skipped :
    listPods jobState [("app", "myjob")] = [failedJobPod]
    ∧ podFailureCheck failedJobPod = true
    ∧ populateFromReleaseCaller NewChartError jobState
        [{ kind := "Job", name := "myjob" }] = Except.ok NewChartError :=
  ⟨rfl, by decide, rfl⟩

/-- C6 (code bug): a bare `Pod` manifest never populates the caller's
`FailedPods`: the `"Pod"` switch arm leaves the selector empty so the
manifest is skipped, and even the late `ce.FailedPods = failedpods`
assignment would only rebind the value receiver's local copy — the caller
sees an unchanged (empty) `FailedPods`. -/
theorem bare_pod_failures_invisible_to_caller :
    podFailureCheck failedBarePod = true
    ∧ populateFromReleaseCaller NewChartError podState
        [{ kind := "Pod", name := "mypod" }] = Except.ok NewChartError :=
  ⟨by decide, rfl⟩

/-- Unfolding of `releaseNameModel` with its lets reduced. -/
theorem releaseNameModel_eq (s : List Char) :
    releaseNameModel s =
      (if stripDashes (collapseDashes ((s.map lowerChar).map replaceChar)) = []
       then fallbackName
       else stripDashes (collapseDashes ((s.map lowerChar).map replaceChar))).take 53 := rfl

/-- C7: for every non-empty input (including all-non-ASCII inputs) the
release-name sanitizer returns a non-empty string of at most 53 code
points drawn from `[a-z0-9-]`. -/
theorem releaseName_sound (s : List Char) (_h : s ≠ []) :
    releaseNameModel s ≠ []
    ∧ (releaseNameModel s).length ≤ 53
    ∧ ∀ ch ∈ releaseNameModel s, allowedChar ch = true := by
  have hmem : ∀ ch ∈ (s.map lowerChar).map replaceChar, allowedChar ch = true := by
    intro ch hch
    rcases List.mem_map.mp hch with ⟨y, _, hy⟩
    exact hy ▸ allowedChar_replaceChar y
  have hmemR : ∀ ch ∈ stripDashes (collapseDashes ((s.map lowerChar).map replaceChar)),
      allowedChar ch = true := by
    intro ch hch
    exact hmem ch (collapseGo_subset false _ (stripDashes_subset _ hch))
  rw [releaseNameModel_eq]
  refine ⟨?_, ?_, ?_⟩
  · by_cases hR : stripDashes (collapseDashes ((s.map lowerChar).map replaceChar)) = []
    · rw [if_pos hR]; decide
    · rw [if_neg hR]
      intro hcontra
      rcases List.take_eq_nil_iff.mp hcontra with h53 | hnil
      · exact absurd h53 (by decide)
      · exact hR hnil
  · rw [List.length_take]; exact min_le_left _ _
  · intro ch hch
    have hch' := List.take_subset _ _ hch
    by_cases hR : stripDashes (collapseDashes ((s.map lowerChar).map replaceChar)) = []
    · rw [if_pos hR] at hch'
      have : ch = 'm' ∨ ch = 'h' := by simpa [fallbackName] using hch'
      rcases this with h | h <;> subst h <;> decide
    · rw [if_neg hR] at hch'
      exact hmemR ch hch'

/-- Witness for C7: the sanitizer's guarantees at the concrete non-empty
input `top`. -/
theorem releaseName_sound_witness :
    releaseNameModel ['t', 'o', 'p'] ≠ []
    ∧ (releaseNameModel ['t', 'o', 'p']).length ≤ 53 :=
  ⟨(releaseName_sound ['t', 'o', 'p'] (by decide)).1,
   (releaseName_sound ['t', 'o', 'p'] (by decide)).2.1⟩

/-- C8: if any chart in the list passed to `Upgrade` lacks an entry in the
supplied release map, `Upgrade` returns an error and performs no upgrade
operation. -/
theorem upgrade_missing_release (rm : List (String × String)) (charts : List Chart)
    (c : Chart) (hc : c ∈ charts) (hmiss : lookupRM rm c.Title = none) :
    (upgradeModel rm charts).1.isSome ∧ (upgradeModel rm charts).2 = [] := by
  have hfind : (charts.find? (fun c => (lookupRM rm c.Title).isNone)).isSome :=
    List.find?_isSome.mpr ⟨c, hc, by simp [hmiss]⟩
  obtain ⟨c', hc'⟩ := Option.isSome_iff_exists.mp hfind
  unfold upgradeModel
  rw [hc']
  simp

/-- Witness for C8: upgrading the `redis` chart against an empty release
map fails without performing any operation. -/
theorem upgrade_missing_release_witness :
    (upgradeModel [] [redisChart]).1.isSome ∧ (upgradeModel [] [redisChart]).2 = [] :=
  upgrade_missing_release [] [redisChart] redisChart (by decide) rfl

/-- C9 counterexample: `Install` writes `WaitTimeout` through the chart
slice into the caller's backing array (metahelm.go:107-110): after the
loop, the caller's `redis` chart (whose `WaitTimeout` was 0) no longer
compares equal to its pre-call value — its `WaitTimeout` is now
`DefaultDeploymentTimeout`. -/
theorem install_mutates_caller_charts :
    (installLoopCharts [redisChart]).2 ≠ [redisChart]
    ∧ (installLoopCharts [redisChart]).2.map (fun c => c.WaitTimeout) =
        [DefaultDeploymentTimeout] :=
  ⟨by decide, by decide⟩

/-- The caller-visible chart slice after a fully successful validation
loop is the elementwise normalization. -/
theorem installLoopCharts_map (cs : List Chart) (h : (installLoopCharts cs).1 = none) :
    (installLoopCharts cs).2 = cs.map normalizeChart := by
  induction cs with
  | nil => simp [installLoopCharts]
  | cons c rest ih =>
    cases hchk : chartCheck (normalizeChart c) with
    | some e => simp [installLoopCharts, hchk] at h
    | none =>
      have h' : (installLoopCharts rest).1 = none := by
        simpa [installLoopCharts, hchk] using h
      simp [installLoopCharts, hchk, ih h']

/-- C9 (amended): `Install` modifies the caller's charts only by setting a
zero `WaitTimeout` to `DefaultDeploymentTimeout`; every other field of
every chart is unchanged, and a chart with nonzero `WaitTimeout` is
unchanged entirely. -/
theorem install_mutation_only_waitTimeout (cs : List Chart)
    (h : (installLoopCharts cs).1 = none) :
    (installLoopCharts cs).2 = cs.map normalizeChart
    ∧ ∀ c : Chart,
        (normalizeChart c).Title = c.Title
        ∧ (normalizeChart c).Location = c.Location
        ∧ (normalizeChart c).ValueOverrides = c.ValueOverrides
        ∧ (normalizeChart c).DependencyList = c.DependencyList
        ∧ (normalizeChart c).WaitUntilDeployment = c.WaitUntilDeployment
        ∧ (normalizeChart c).WaitUntilHelmSaysItsReady = c.WaitUntilHelmSaysItsReady
        ∧ (normalizeChart c).DeploymentHealthIndication = c.DeploymentHealthIndication
        ∧ (c.WaitTimeout ≠ 0 → normalizeChart c = c) := by
  refine ⟨installLoopCharts_map cs h, fun c => ?_⟩
  unfold normalizeChart
  by_cases hwt : c.WaitTimeout = 0
  · rw [if_pos hwt]
    exact ⟨rfl, rfl, rfl, rfl, rfl, rfl, rfl, fun hne => absurd hwt hne⟩
  · rw [if_neg hwt]
    exact ⟨rfl, rfl, rfl, rfl, rfl, rfl, rfl, fun _ => rfl⟩

/-- Witness for C9 (amended): the loop succeeds on the `anotherthing`
chart and the caller's slice is its normalization. -/
theorem install_mutation_only_waitTimeout_witness :
    (installLoopCharts [anotherChart]).2 = [anotherChart].map normalizeChart :=
  (install_mutation_only_waitTimeout [anotherChart] (by decide)).1

/-- C10: `Install` called with an empty chart list returns the
"no charts were supplied" error with a nil release map, emitting no event:
no graph build, no callback invocation, no installer call. -/
theorem install_empty_charts (cb : Option (Chart → Int))
    (installRelease : Chart → Except String String)
    (pollInp : String → Nat → Except String WorkloadObj × Except String (Option ReplicaSetObj))
    (cbFuel waitFuel : Nat) :
    InstallM [] cb installRelease pollInp cbFuel waitFuel =
      (some (Except.error "no charts were supplied"), []) := rfl

end Metahelm
